import Mathlib

/-
Verification development for the two-phase authentication and
session-lifecycle subsystem of the bot control-center backend.
The definitions below are a shallow embedding of the AuthService class
and its storage collaborators; timestamps are milliseconds since the
epoch, represented as Int, and every operation is an explicit function
from the service state to a result paired with the successor state.
Randomness (the 6-digit code, the code identifier, the session token)
and environment facts (development mode, whether the outbound email
dispatch succeeded) are passed in as explicit parameters.
-/

namespace BotControl

/-- Record for a provisioned user, as stored by the credential store. -/
structure User where
  id : Nat
  email : String
  name : String
  role : String
  passwordHash : String
  isActive : Bool
  whitelistedIPs : List String
deriving Repr, DecidableEq

/-- Record for an issued session, as stored by the session store. -/
structure AuthSession where
  userId : Nat
  sessionToken : String
  ipAddress : String
  userAgent : String
  isActive : Bool
  expiresAt : Int
deriving Repr, DecidableEq

/-- Entry of the in-memory verification code cache. -/
structure VerificationCode where
  code : String
  email : String
  ip : String
  userAgent : String
  expiresAt : Int
  used : Bool
deriving Repr, DecidableEq

/-- Entry of the in-memory login throttle tracker. -/
structure LoginAttempt where
  count : Nat
  lastAttempt : Int
deriving Repr, DecidableEq

/-- Entry of the append-only activity log sink. -/
structure ActivityLog where
  userId : Nat
  action : String
  status : String
  message : String
  ipAddress : String
  userAgent : String
deriving Repr, DecidableEq

/-- Whole observable state of the subsystem: the external credential
store, session store and activity log, and the two core-owned
in-memory maps (represented as association lists keyed by strings). -/
structure AuthState where
  users : List User
  sessions : List AuthSession
  verificationCodes : List (String × VerificationCode)
  loginAttempts : List (String × LoginAttempt)
  activityLogs : List ActivityLog
deriving Repr, DecidableEq

/-- Result record returned by the two login steps. -/
structure AuthResult where
  success : Bool
  message : String
  code : Option String := none
  codeId : Option String := none
  expiresIn : Option Int := none
  sessionToken : Option String := none
  user : Option User := none
deriving Repr, DecidableEq

/-- Result record returned by verifySession. -/
structure SessionVerification where
  valid : Bool
  message : Option String := none
  user : Option User := none
  session : Option AuthSession := none
deriving Repr, DecidableEq

/-- Lookup in an association list, mirroring Map.get. -/
def mapLookup {α : Type} (m : List (String × α)) (k : String) : Option α :=
  match m with
  | [] => none
  | (k2, v) :: rest => if k2 == k then some v else mapLookup rest k

/-- Insert or replace in an association list, mirroring Map.set. -/
def mapInsert {α : Type} (m : List (String × α)) (k : String) (v : α) :
    List (String × α) :=
  match m with
  | [] => [(k, v)]
  | (k2, v2) :: rest =>
    if k2 == k then (k, v) :: rest else (k2, v2) :: mapInsert rest k v

/-- Remove every binding of a key, mirroring Map.delete. -/
def mapErase {α : Type} (m : List (String × α)) (k : String) :
    List (String × α) :=
  m.filter (fun p => p.1 != k)

/-- Configured maximum of failed first-factor attempts per address. -/
def maxLoginAttempts : Nat := 3

/-- Configured lockout window in milliseconds (15 minutes). -/
def lockoutDuration : Int := 15 * 60 * 1000

/-- Configured verification code lifetime in milliseconds (5 minutes). -/
def codeExpiry : Int := 5 * 60 * 1000

/-- Configured session lifetime in milliseconds (24 hours). -/
def sessionExpiry : Int := 24 * 60 * 60 * 1000

/-- Millisecond count rounded up to whole seconds, mirroring the
Math.ceil division by 1000 in the throttle check; only applied to
positive remainders there. -/
def ceilToSeconds (ms : Int) : Int := (ms + 999) / 1000

/-- Message produced for a throttled first-factor attempt. -/
def rateLimitedMessage (remainingTime : Int) : String :=
  s!"Too many login attempts. Try again in {remainingTime} seconds."

/-- Outcome of the throttle consultation. -/
structure AttemptCheck where
  allowed : Bool
  remainingTime : Option Int := none
deriving Repr, DecidableEq

/-- Throttle consultation: blocked while the counter has reached the
maximum and the lockout window has not yet elapsed; once the window
has elapsed the counter entry is deleted and the call is allowed. -/
def checkLoginAttempts (st : AuthState) (ip : String) (now : Int) :
    AttemptCheck × AuthState :=
  match mapLookup st.loginAttempts ip with
  | none => ({ allowed := true }, st)
  | some attempts =>
    let timeSinceLastAttempt := now - attempts.lastAttempt
    if maxLoginAttempts ≤ attempts.count then
      if timeSinceLastAttempt < lockoutDuration then
        ({ allowed := false,
           remainingTime :=
             some (ceilToSeconds (lockoutDuration - timeSinceLastAttempt)) },
         st)
      else
        ({ allowed := true },
         { st with loginAttempts := mapErase st.loginAttempts ip })
    else
      ({ allowed := true }, st)

/-- Record the outcome of a first-factor attempt: success deletes the
counter entry, failure increments it and stamps the current time. -/
def recordLoginAttempt (st : AuthState) (ip : String) (success : Bool)
    (now : Int) : AuthState :=
  if success then
    { st with loginAttempts := mapErase st.loginAttempts ip }
  else
    let attempts := (mapLookup st.loginAttempts ip).getD ⟨0, 0⟩
    { st with loginAttempts :=
        mapInsert st.loginAttempts ip ⟨attempts.count + 1, now⟩ }

/-- Addresses always treated as local in development mode. -/
def localhostIPs : List String := ["127.0.0.1", "localhost", "::1", "0.0.0.0"]

/-- Allow-list check: an empty list allows every address; in
development mode the localhost addresses are always allowed. -/
def isIPWhitelisted (user : User) (ip : String) (devMode : Bool) : Bool :=
  if user.whitelistedIPs.isEmpty then true
  else if devMode && localhostIPs.contains ip then true
  else user.whitelistedIPs.contains ip

/-- Credential store lookup by exact email string. -/
def getUserByEmail (users : List User) (email : String) : Option User :=
  users.find? (fun u => u.email == email)

/-- Credential store lookup by user id. -/
def getUser (users : List User) (id : Nat) : Option User :=
  users.find? (fun u => u.id == id)

/-- Outbound code dispatch: always reported successful in development
mode, otherwise the external transport outcome is taken as given. -/
def sendVerificationCode (devMode : Bool) (dispatchOk : Bool) : Bool :=
  if devMode then true else dispatchOk

/-- Model of the toLowerCase email normalization: lower-casing applied
character by character (identical to the library routine on the ASCII
emails this subsystem handles, and computable by the kernel). -/
def toLowerStr (s : String) : String := String.mk (s.data.map Char.toLower)

/-- Model of the external bcrypt library as a deterministic injective
digest; the comparison succeeds exactly when the hash was produced
from the password, which is the contract the source relies on. -/
def bcryptHash (password : String) : String := "bcrypt2b12" ++ password

/-- Model of the bcrypt comparison against a stored hash. -/
def bcryptCompare (password hash : String) : Bool := hash == bcryptHash password

/-- Append one entry to the activity log sink; an absent client
descriptor is recorded as Unknown. -/
def logActivity (st : AuthState) (userId : Nat)
    (action status message ip : String) (userAgent : Option String) :
    AuthState :=
  { st with activityLogs :=
      st.activityLogs ++
        [⟨userId, action, status, message, ip, userAgent.getD "Unknown"⟩] }

/-- Steps of verifyCredentials after the throttle consultation: user
lookup by lower-cased email, password comparison, allow-list check,
code issuance, dispatch, and audit logging, in source order. -/
def verifyCredentialsAfterThrottle (st : AuthState)
    (email password ip userAgent : String) (now : Int)
    (code codeId : String) (dispatchOk devMode : Bool) :
    AuthResult × AuthState :=
  match getUserByEmail st.users (toLowerStr email) with
  | none =>
    ({ success := false, message := "Invalid credentials" },
     recordLoginAttempt st ip false now)
  | some user =>
    if !user.isActive then
      ({ success := false, message := "Invalid credentials" },
       recordLoginAttempt st ip false now)
    else if !bcryptCompare password user.passwordHash then
      let st := recordLoginAttempt st ip false now
      let st := logActivity st user.id "login_attempt" "error"
        "Invalid password" ip (some userAgent)
      ({ success := false, message := "Invalid credentials" }, st)
    else if !isIPWhitelisted user ip devMode then
      let st := recordLoginAttempt st ip false now
      let st := logActivity st user.id "login_attempt" "error"
        (s!"Unauthorized IP: {ip}") ip (some userAgent)
      ({ success := false, message := "Access denied: IP not authorized" }, st)
    else
      let entry : VerificationCode :=
        { code := code, email := user.email, ip := ip, userAgent := userAgent,
          expiresAt := now + codeExpiry, used := false }
      let st :=
        { st with
            verificationCodes := mapInsert st.verificationCodes codeId entry }
      let emailSent := sendVerificationCode devMode dispatchOk
      if !emailSent && !devMode then
        ({ success := false, message := "Failed to send verification code" },
         st)
      else
        let st := logActivity st user.id "login_step1" "success"
          "Credentials verified, 2FA sent" ip (some userAgent)
        ({ success := true, message := "Verification code sent to your email",
           codeId := some codeId, expiresIn := some (codeExpiry / 1000) }, st)

/-- First login step: throttle consultation, then the credential,
allow-list, code issuance and notification steps. -/
def verifyCredentials (st : AuthState) (email password ip userAgent : String)
    (now : Int) (code codeId : String) (dispatchOk devMode : Bool) :
    AuthResult × AuthState :=
  let chk := checkLoginAttempts st ip now
  if !chk.1.allowed then
    ({ success := false,
       message := rateLimitedMessage (chk.1.remainingTime.getD 0) }, chk.2)
  else
    verifyCredentialsAfterThrottle chk.2 email password ip userAgent now
      code codeId dispatchOk devMode

/-- Second login step: expiry, replay, origin and code checks on the
cached entry, then user re-fetch, session creation, throttle reset,
audit logging and entry deletion, in source order. -/
def verify2FACode (st : AuthState) (codeId inputCode ip : String)
    (now : Int) (sessionToken : String) : AuthResult × AuthState :=
  match mapLookup st.verificationCodes codeId with
  | none =>
    ({ success := false, message := "Invalid or expired verification code" },
     st)
  | some verification =>
    if verification.expiresAt < now then
      ({ success := false, message := "Verification code expired" },
       { st with verificationCodes := mapErase st.verificationCodes codeId })
    else if verification.used then
      ({ success := false, message := "Verification code already used" }, st)
    else if verification.ip != ip then
      ({ success := false, message := "Security error: IP mismatch" }, st)
    else if verification.code != inputCode then
      ({ success := false, message := "Invalid verification code" }, st)
    else
      let st :=
        { st with
            verificationCodes :=
              mapInsert st.verificationCodes codeId
                { verification with used := true } }
      match getUserByEmail st.users verification.email with
      | none =>
        ({ success := false, message := "User not found or inactive" }, st)
      | some user =>
        if !user.isActive then
          ({ success := false, message := "User not found or inactive" }, st)
        else
          let session : AuthSession :=
            { userId := user.id, sessionToken := sessionToken,
              ipAddress := ip, userAgent := verification.userAgent,
              isActive := true, expiresAt := now + sessionExpiry }
          let st := { st with sessions := st.sessions ++ [session] }
          let st := recordLoginAttempt st ip true now
          let st := logActivity st user.id "login_success" "success"
            "Successfully logged in" ip (some verification.userAgent)
          let st :=
            { st with
                verificationCodes := mapErase st.verificationCodes codeId }
          ({ success := true, message := "Login successful",
             sessionToken := some sessionToken, user := some user }, st)

/-- Session store lookup by token. -/
def getAuthSession (sessions : List AuthSession) (token : String) :
    Option AuthSession :=
  sessions.find? (fun s => s.sessionToken == token)

/-- Session store update clearing the active flag of the sessions
carrying the given token (the only update the service issues). -/
def deactivateSession (sessions : List AuthSession) (token : String) :
    List AuthSession :=
  sessions.map (fun s =>
    if s.sessionToken == token then { s with isActive := false } else s)

/-- Session validation: empty token, missing session, inactive flag,
lazy expiry with write-back deactivation, then owner re-fetch with
write-back deactivation when the owner is absent or inactive. -/
def verifySession (st : AuthState) (sessionToken : String) (now : Int) :
    SessionVerification × AuthState :=
  if sessionToken == "" then
    ({ valid := false, message := some "No session token provided" }, st)
  else
    match getAuthSession st.sessions sessionToken with
    | none => ({ valid := false, message := some "Invalid session token" }, st)
    | some session =>
      if !session.isActive then
        ({ valid := false, message := some "Session is inactive" }, st)
      else if session.expiresAt < now then
        ({ valid := false, message := some "Session expired" },
         { st with sessions := deactivateSession st.sessions sessionToken })
      else
        match getUser st.users session.userId with
        | none =>
          ({ valid := false, message := some "User not found or inactive" },
           { st with sessions := deactivateSession st.sessions sessionToken })
        | some user =>
          if !user.isActive then
            ({ valid := false, message := some "User not found or inactive" },
             { st with sessions := deactivateSession st.sessions sessionToken })
          else
            ({ valid := true, user := some user, session := some session }, st)

/-- Logout: delete the sessions carrying the token and report whether
one was found. -/
def logout (st : AuthState) (sessionToken : String) :
    (Bool × String) × AuthState :=
  let found := st.sessions.any (fun s => s.sessionToken == sessionToken)
  ((found,
    if found then "Logged out successfully" else "Session not found"),
   { st with sessions :=
       st.sessions.filter (fun s => s.sessionToken != sessionToken) })

/-- Periodic sweep: drop expired sessions, expired verification code
entries, and throttle entries older than one hour. -/
def cleanupExpiredData (st : AuthState) (now : Int) : AuthState :=
  let st :=
    { st with
        sessions := st.sessions.filter (fun s => !(decide (s.expiresAt < now))) }
  let st :=
    { st with
        verificationCodes :=
          st.verificationCodes.filter (fun p => !(decide (p.2.expiresAt < now))) }
  { st with
      loginAttempts :=
        st.loginAttempts.filter
          (fun p => !(decide (p.2.lastAttempt < now - 3600000))) }

/-- Credential store update replacing the password hash of the users
with the given id. -/
def updateUserPasswordHash (users : List User) (userId : Nat)
    (newHash : String) : List User :=
  users.map (fun u =>
    if u.id == userId then { u with passwordHash := newHash } else u)

/-- Password change: re-verify the current password against the stored
hash, then re-hash and persist the new password and audit-log. -/
def changePassword (st : AuthState) (userId : Nat)
    (currentPassword newPassword : String) :
    (Bool × String) × AuthState :=
  match getUser st.users userId with
  | none => ((false, "User not found"), st)
  | some user =>
    if !bcryptCompare currentPassword user.passwordHash then
      ((false, "Current password is incorrect"), st)
    else
      let st := { st with users :=
        updateUserPasswordHash st.users userId (bcryptHash newPassword) }
      let st := logActivity st userId "password_change" "success"
        "Password changed successfully" "system" none
      ((true, "Password changed successfully"), st)

/-- Public projection of a user sent in the verify endpoint response. -/
structure PublicUserProfile where
  id : Nat
  email : String
  name : String
  role : String
deriving Repr, DecidableEq

/-- Shape of the verify endpoint HTTP response: status, body fields,
and the session cookie value when one is set. -/
structure VerifyResponse where
  status : Nat
  success : Bool
  message : String
  user : Option PublicUserProfile := none
  cookieSessionToken : Option String := none
deriving Repr, DecidableEq

/-- Projection of a user record to the public fields exposed by the
verify endpoint. -/
def toPublicProfile (u : User) : PublicUserProfile :=
  ⟨u.id, u.email, u.name, u.role⟩

/-- Handler of POST /api/auth/verify: runs the second login step; on
success it sets the session cookie and responds 200 with the public
profile, otherwise it responds 401 with the failure message. -/
def verifyHandler (st : AuthState) (codeId code ip : String) (now : Int)
    (sessionToken : String) : VerifyResponse × AuthState :=
  let out := verify2FACode st codeId code ip now sessionToken
  if out.1.success then
    ({ status := 200, success := true, message := out.1.message,
       user := out.1.user.map toPublicProfile,
       cookieSessionToken := out.1.sessionToken }, out.2)
  else
    ({ status := 401, success := false, message := out.1.message }, out.2)

/-- Looking up a key right after inserting it yields the inserted value. -/
theorem mapLookup_insert_self {α : Type} (m : List (String × α)) (k : String)
    (v : α) : mapLookup (mapInsert m k v) k = some v := by
  induction m with
  | nil => simp [mapInsert, mapLookup]
  | cons hd tl ih =>
    by_cases h : hd.1 = k
    · simp [mapInsert, mapLookup, h]
    · simp [mapInsert, mapLookup, h, ih]

/-- Inserting one key does not change the binding of another key. -/
theorem mapLookup_insert_ne {α : Type} (m : List (String × α)) (k k2 : String)
    (v : α) (h : k2 ≠ k) : mapLookup (mapInsert m k v) k2 = mapLookup m k2 := by
  have hks : ¬ k = k2 := fun hc => h hc.symm
  induction m with
  | nil => simp [mapInsert, mapLookup, hks]
  | cons hd tl ih =>
    by_cases hh : hd.1 = k
    · simp [mapInsert, mapLookup, hh, hks]
    · by_cases hh2 : hd.1 = k2
      · simp [mapInsert, mapLookup, hh, hh2, h]
      · simp [mapInsert, mapLookup, hh, hh2, ih]

/-- Looking up a key right after erasing it yields nothing. -/
theorem mapLookup_erase_self {α : Type} (m : List (String × α)) (k : String) :
    mapLookup (mapErase m k) k = none := by
  induction m with
  | nil => simp [mapErase, mapLookup]
  | cons hd tl ih =>
    by_cases h : hd.1 = k
    · simpa [mapErase, mapLookup, h] using ih
    · simpa [mapErase, mapLookup, h] using ih

/-- Erasing one key does not change the binding of another key. -/
theorem mapLookup_erase_ne {α : Type} (m : List (String × α)) (k k2 : String)
    (h : k2 ≠ k) : mapLookup (mapErase m k) k2 = mapLookup m k2 := by
  have hks : ¬ k = k2 := fun hc => h hc.symm
  induction m with
  | nil => simp [mapErase, mapLookup]
  | cons hd tl ih =>
    simp only [mapErase] at ih ⊢
    by_cases hh : hd.1 = k
    · have hh2 : ¬ hd.1 = k2 := by rw [hh]; exact hks
      simp [mapLookup, hh, hh2, hks, ih]
    · by_cases hh2 : hd.1 = k2 <;>
        simp [List.filter_cons, mapLookup, hh, hh2, h, ih]

/-- Filtering an association list in which a key is not bound, after
inserting that key, keeps or drops exactly the inserted binding. -/
theorem mapLookup_insert_filter_fresh {α : Type} (m : List (String × α))
    (k : String) (v : α) (p : String × α → Bool)
    (h : mapLookup m k = none) :
    mapLookup ((mapInsert m k v).filter p) k =
      if p (k, v) then some v else none := by
  induction m with
  | nil =>
    by_cases hp : p (k, v) <;> simp [mapInsert, mapLookup, hp]
  | cons hd tl ih =>
    have hne : ¬ hd.1 = k := by
      intro hc
      simp [mapLookup, hc] at h
    have htl : mapLookup tl k = none := by
      simpa [mapLookup, hne] using h
    by_cases hp : p hd <;>
      simp [mapInsert, mapLookup, hne, hp, ih htl]

/-- Mapping a function that preserves the predicate commutes with the
first-match search. -/
theorem find?_map_pred {α : Type} (f : α → α) (p : α → Bool) (l : List α)
    (hp : ∀ x, p (f x) = p x) :
    (l.map f).find? p = (l.find? p).map f := by
  induction l with
  | nil => simp
  | cons hd tl ih =>
    by_cases h : p hd
    · simp [List.find?, hp, h]
    · simp only [List.map_cons, List.find?, hp, h]
      simpa [h, hp] using ih

/-- The modelled bcrypt digest is injective on passwords. -/
theorem bcryptHash_inj {a b : String} (h : bcryptHash a = bcryptHash b) :
    a = b := by
  have hd := congrArg String.data h
  simp only [bcryptHash, String.data_append] at hd
  exact String.ext (List.append_cancel_left hd)

/-- Exhaustive outcome split of the second login step: every failing
run leaves the session store untouched and returns no token, and every
successful run appends exactly one session owned by an active stored
user and removes the code entry from the cache. -/
theorem verify2FACode_outcome (st : AuthState) (codeId inputCode ip : String)
    (now : Int) (tok : String) :
    ((verify2FACode st codeId inputCode ip now tok).1.success = false ∧
     (verify2FACode st codeId inputCode ip now tok).2.sessions = st.sessions ∧
     (verify2FACode st codeId inputCode ip now tok).1.sessionToken = none) ∨
    ((verify2FACode st codeId inputCode ip now tok).1.success = true ∧
     ∃ v u, mapLookup st.verificationCodes codeId = some v ∧
       getUserByEmail st.users v.email = some u ∧ u.isActive = true ∧
       (verify2FACode st codeId inputCode ip now tok).2.sessions =
         st.sessions ++
           [⟨u.id, tok, ip, v.userAgent, true, now + sessionExpiry⟩] ∧
       mapLookup (verify2FACode st codeId inputCode ip now tok).2.verificationCodes
         codeId = none) := by
  cases hv : mapLookup st.verificationCodes codeId with
  | none => exact Or.inl (by simp [verify2FACode, hv])
  | some v =>
    by_cases h1 : v.expiresAt < now
    · exact Or.inl (by simp [verify2FACode, hv, h1])
    · cases h2 : v.used with
      | true => exact Or.inl (by simp [verify2FACode, hv, h1, h2])
      | false =>
        by_cases h3 : v.ip = ip
        · by_cases h4 : v.code = inputCode
          · cases hu : getUserByEmail st.users v.email with
            | none =>
              exact Or.inl (by simp [verify2FACode, hv, h1, h2, h3, h4, hu])
            | some u =>
              cases h5 : u.isActive with
              | false =>
                exact Or.inl
                  (by simp [verify2FACode, hv, h1, h2, h3, h4, hu, h5])
              | true =>
                refine Or.inr ⟨?_, v, u, rfl, hu, h5, ?_, ?_⟩ <;>
                  simp [verify2FACode, hv, h1, h2, h3, h4, hu, h5,
                    recordLoginAttempt, logActivity, mapLookup_erase_self]
          · exact Or.inl (by simp [verify2FACode, hv, h1, h2, h3, h4])
        · exact Or.inl (by simp [verify2FACode, hv, h1, h2, h3])

/-- Example active user fixture used by the concrete witnesses. -/
def exUser : User := ⟨1, "a@b.com", "Alice", "admin", bcryptHash "secret123", true, []⟩

/-- Example state holding one fresh verification code for the user. -/
def exCodeState : AuthState :=
  ⟨[exUser], [], [("cid", ⟨"123456", "a@b.com", "1.2.3.4", "UA", 1000, false⟩)],
   [], []⟩

/-- Example state whose only verification code entry is already used. -/
def exUsedState : AuthState :=
  ⟨[exUser], [], [("cid", ⟨"123456", "a@b.com", "1.2.3.4", "UA", 1000, true⟩)],
   [], []⟩

/-- Example state whose verification code entry names no stored user. -/
def exGhostState : AuthState :=
  ⟨[], [], [("cid", ⟨"123456", "ghost@b.com", "1.2.3.4", "UA", 1000, false⟩)],
   [], []⟩

/-- Example throttle state, locked by three failures at epoch time zero. -/
def exThrottledState : AuthState := ⟨[], [], [], [("1.2.3.4", ⟨3, 0⟩)], []⟩

/-- C1 as frozen is false on the code: after a first successful
submission the entry is deleted, so the second submission of the same
correct code, still inside the validity window, fails with the
invalid-or-expired message rather than the already-used message. -/
theorem c1_counterexample :
    mapLookup exCodeState.verificationCodes "cid" =
      some ⟨"123456", "a@b.com", "1.2.3.4", "UA", 1000, false⟩ ∧
    (verify2FACode exCodeState "cid" "123456" "1.2.3.4" 500 "t").1.success
      = true ∧
    (600 : Int) ≤ 1000 ∧
    (verify2FACode (verify2FACode exCodeState "cid" "123456" "1.2.3.4" 500 "t").2
      "cid" "123456" "1.2.3.4" 600 "t2").1.success = false ∧
    (verify2FACode (verify2FACode exCodeState "cid" "123456" "1.2.3.4" 500 "t").2
      "cid" "123456" "1.2.3.4" 600 "t2").1.message =
      "Invalid or expired verification code" ∧
    (verify2FACode (verify2FACode exCodeState "cid" "123456" "1.2.3.4" 500 "t").2
      "cid" "123456" "1.2.3.4" 600 "t2").1.message ≠
      "Verification code already used" := by decide

/-- C1 (amended): for every existing entry, verify2FACode fails with
the expired message and deletes the entry whenever the current time
exceeds the stored expiry; a code is accepted at most once: after a
successful submission the entry is deleted, so a second submission of
that code identifier fails with the invalid-or-expired message, while
the already-used message is produced when the entry is still cached
with its used flag set. -/
theorem c1_code_single_use
    (stA : AuthState) (vA : VerificationCode) (cidA codeA ipA tokA : String)
    (nowA : Int)
    (stB : AuthState) (cidB codeB ipB tokB codeB2 ipB2 tokB2 : String)
    (nowB nowB2 : Int)
    (stC : AuthState) (vC : VerificationCode) (cidC codeC ipC tokC : String)
    (nowC : Int)
    (hvA : mapLookup stA.verificationCodes cidA = some vA)
    (hexpA : vA.expiresAt < nowA)
    (hsucc : (verify2FACode stB cidB codeB ipB nowB tokB).1.success = true)
    (hvC : mapLookup stC.verificationCodes cidC = some vC)
    (hexpC : ¬ vC.expiresAt < nowC)
    (husedC : vC.used = true) :
    ((verify2FACode stA cidA codeA ipA nowA tokA).1 =
       { success := false, message := "Verification code expired" } ∧
     (verify2FACode stA cidA codeA ipA nowA tokA).2 =
       { stA with verificationCodes := mapErase stA.verificationCodes cidA }) ∧
    (verify2FACode (verify2FACode stB cidB codeB ipB nowB tokB).2
        cidB codeB2 ipB2 nowB2 tokB2).1 =
      { success := false, message := "Invalid or expired verification code" } ∧
    (verify2FACode stC cidC codeC ipC nowC tokC).1 =
      { success := false, message := "Verification code already used" } ∧
    (verify2FACode stC cidC codeC ipC nowC tokC).2 = stC := by
  refine ⟨⟨?_, ?_⟩, ?_, ?_, ?_⟩
  · simp [verify2FACode, hvA, hexpA]
  · simp [verify2FACode, hvA, hexpA]
  · rcases verify2FACode_outcome stB cidB codeB ipB nowB tokB with h | h
    · exact absurd hsucc (by simp [h.1])
    · obtain ⟨-, v, u, -, -, -, -, hnone⟩ := h
      generalize hgen :
        (verify2FACode stB cidB codeB ipB nowB tokB).2 = st2 at hnone ⊢
      simp [verify2FACode, hnone]
  · simp [verify2FACode, hvC, hexpC, husedC]
  · simp [verify2FACode, hvC, hexpC, husedC]

/-- Witness instantiating the amended C1 theorem on concrete states. -/
theorem c1_code_single_use_witness :
    (mapLookup exCodeState.verificationCodes "cid" =
       some ⟨"123456", "a@b.com", "1.2.3.4", "UA", 1000, false⟩ ∧
     (⟨"123456", "a@b.com", "1.2.3.4", "UA", 1000, false⟩ :
       VerificationCode).expiresAt < 2000 ∧
     (verify2FACode exCodeState "cid" "123456" "1.2.3.4" 500 "t").1.success
       = true ∧
     mapLookup exUsedState.verificationCodes "cid" =
       some ⟨"123456", "a@b.com", "1.2.3.4", "UA", 1000, true⟩ ∧
     ¬ (⟨"123456", "a@b.com", "1.2.3.4", "UA", 1000, true⟩ :
       VerificationCode).expiresAt < 500) ∧
    ((verify2FACode exCodeState "cid" "123456" "1.2.3.4" 2000 "t").1 =
       { success := false, message := "Verification code expired" } ∧
     (verify2FACode exCodeState "cid" "123456" "1.2.3.4" 2000 "t").2 =
       { exCodeState with
           verificationCodes := mapErase exCodeState.verificationCodes "cid" }) ∧
    (verify2FACode (verify2FACode exCodeState "cid" "123456" "1.2.3.4" 500 "t").2
        "cid" "123456" "1.2.3.4" 600 "t2").1 =
      { success := false, message := "Invalid or expired verification code" } ∧
    (verify2FACode exUsedState "cid" "123456" "1.2.3.4" 500 "t").1 =
      { success := false, message := "Verification code already used" } ∧
    (verify2FACode exUsedState "cid" "123456" "1.2.3.4" 500 "t").2 =
      exUsedState :=
  ⟨⟨by decide, by decide, by decide, by decide, by decide⟩,
   c1_code_single_use exCodeState
     ⟨"123456", "a@b.com", "1.2.3.4", "UA", 1000, false⟩
     "cid" "123456" "1.2.3.4" "t" 2000
     exCodeState "cid" "123456" "1.2.3.4" "t" "123456" "1.2.3.4" "t2" 500 600
     exUsedState ⟨"123456", "a@b.com", "1.2.3.4", "UA", 1000, true⟩
     "cid" "123456" "1.2.3.4" "t" 500
     (by decide) (by decide) (by decide) (by decide) (by decide) (by decide)⟩

/-- C2 as frozen is false on the code: the service-level result of a
successful verify2FACode carries the full stored user record, password
hash included, not only the public profile. -/
theorem c2_counterexample :
    getUserByEmail exCodeState.users "a@b.com" = some exUser ∧
    (verify2FACode exCodeState "cid" "123456" "1.2.3.4" 500 "t").1.success
      = true ∧
    (verify2FACode exCodeState "cid" "123456" "1.2.3.4" 500 "t").1.user
      = some exUser ∧
    exUser.passwordHash = bcryptHash "secret123" ∧
    exUser.passwordHash ≠ "" := by decide

/-- C2 (amended): on success verify2FACode deletes the entry, appends
one audit record, and returns the session token together with the full
user record including the stored password hash; the HTTP verify
handler then responds 200 exposing only the public profile fields
(id, email, name, role), never the hash. -/
theorem c2_success_effects (st : AuthState) (v : VerificationCode) (u : User)
    (codeId inputCode ip tok : String) (now : Int)
    (hv : mapLookup st.verificationCodes codeId = some v)
    (hexp : ¬ v.expiresAt < now)
    (hused : v.used = false)
    (hip : v.ip = ip)
    (hcode : v.code = inputCode)
    (hu : getUserByEmail st.users v.email = some u)
    (hact : u.isActive = true) :
    (verify2FACode st codeId inputCode ip now tok).1.success = true ∧
    (verify2FACode st codeId inputCode ip now tok).1.message
      = "Login successful" ∧
    (verify2FACode st codeId inputCode ip now tok).1.sessionToken = some tok ∧
    (verify2FACode st codeId inputCode ip now tok).1.user = some u ∧
    mapLookup (verify2FACode st codeId inputCode ip now tok).2.verificationCodes
      codeId = none ∧
    (verify2FACode st codeId inputCode ip now tok).2.activityLogs =
      st.activityLogs ++
        [⟨u.id, "login_success", "success", "Successfully logged in", ip,
          v.userAgent⟩] ∧
    (verifyHandler st codeId inputCode ip now tok).1 =
      ⟨200, true, "Login successful", some (toPublicProfile u), some tok⟩ := by
  refine ⟨?_, ?_, ?_, ?_, ?_, ?_, ?_⟩ <;>
    simp [verify2FACode, verifyHandler, hv, hexp, hused, hip, hcode, hu, hact,
      recordLoginAttempt, logActivity, mapLookup_erase_self]

/-- Witness instantiating the amended C2 theorem on a concrete state. -/
theorem c2_success_effects_witness :
    (mapLookup exCodeState.verificationCodes "cid" =
       some ⟨"123456", "a@b.com", "1.2.3.4", "UA", 1000, false⟩ ∧
     ¬ (⟨"123456", "a@b.com", "1.2.3.4", "UA", 1000, false⟩ :
       VerificationCode).expiresAt < 500 ∧
     getUserByEmail exCodeState.users "a@b.com" = some exUser ∧
     exUser.isActive = true) ∧
    (verify2FACode exCodeState "cid" "123456" "1.2.3.4" 500 "t").1.success
      = true ∧
    (verify2FACode exCodeState "cid" "123456" "1.2.3.4" 500 "t").1.message
      = "Login successful" ∧
    (verify2FACode exCodeState "cid" "123456" "1.2.3.4" 500 "t").1.sessionToken
      = some "t" ∧
    (verify2FACode exCodeState "cid" "123456" "1.2.3.4" 500 "t").1.user
      = some exUser ∧
    mapLookup (verify2FACode exCodeState "cid" "123456" "1.2.3.4" 500
      "t").2.verificationCodes "cid" = none ∧
    (verify2FACode exCodeState "cid" "123456" "1.2.3.4" 500 "t").2.activityLogs =
      exCodeState.activityLogs ++
        [⟨exUser.id, "login_success", "success", "Successfully logged in",
          "1.2.3.4", "UA"⟩] ∧
    (verifyHandler exCodeState "cid" "123456" "1.2.3.4" 500 "t").1 =
      ⟨200, true, "Login successful", some (toPublicProfile exUser), some "t"⟩ :=
  ⟨⟨by decide, by decide, by decide, by decide⟩,
   c2_success_effects exCodeState
     ⟨"123456", "a@b.com", "1.2.3.4", "UA", 1000, false⟩ exUser
     "cid" "123456" "1.2.3.4" "t" 500
     (by decide) (by decide) (by decide) (by decide) (by decide) (by decide)
     (by decide)⟩

/-- C3: once an address has reached maxLoginAttempts failures, a call
inside the lockout window is rejected with the rate-limit message and
its remaining seconds, independently of the supplied credentials and
without touching any state; at or after the window boundary the
counter entry is reset and the call proceeds exactly as it would on a
state with no counter entry for that address. -/
theorem c3_throttle_lockout (st : AuthState) (a : LoginAttempt)
    (email password ip userAgent code codeId : String)
    (now1 now2 : Int) (dispatchOk devMode : Bool)
    (ha : mapLookup st.loginAttempts ip = some a)
    (hc : maxLoginAttempts ≤ a.count)
    (h1 : now1 - a.lastAttempt < lockoutDuration)
    (h2 : lockoutDuration ≤ now2 - a.lastAttempt) :
    (verifyCredentials st email password ip userAgent now1 code codeId
        dispatchOk devMode).1 =
      { success := false,
        message := rateLimitedMessage
          (ceilToSeconds (lockoutDuration - (now1 - a.lastAttempt))) } ∧
    (verifyCredentials st email password ip userAgent now1 code codeId
        dispatchOk devMode).2 = st ∧
    verifyCredentials st email password ip userAgent now2 code codeId
        dispatchOk devMode =
      verifyCredentials
        { st with loginAttempts := mapErase st.loginAttempts ip }
        email password ip userAgent now2 code codeId dispatchOk devMode := by
  have h2n : ¬ now2 - a.lastAttempt < lockoutDuration := not_lt.mpr h2
  refine ⟨?_, ?_, ?_⟩ <;>
    simp [verifyCredentials, checkLoginAttempts, ha, hc, h1, h2n,
      mapLookup_erase_self]

/-- Witness instantiating the C3 theorem on a concrete locked state. -/
theorem c3_throttle_lockout_witness :
    (mapLookup exThrottledState.loginAttempts "1.2.3.4" = some ⟨3, 0⟩ ∧
     maxLoginAttempts ≤ (⟨3, 0⟩ : LoginAttempt).count ∧
     (60000 : Int) - (⟨3, 0⟩ : LoginAttempt).lastAttempt < lockoutDuration ∧
     lockoutDuration ≤ (900000 : Int) - (⟨3, 0⟩ : LoginAttempt).lastAttempt) ∧
    (verifyCredentials exThrottledState "a@b.com" "pw" "1.2.3.4" "UA" 60000
        "123456" "cid" true false).1 =
      { success := false,
        message := rateLimitedMessage
          (ceilToSeconds
            (lockoutDuration -
              ((60000 : Int) - (⟨3, 0⟩ : LoginAttempt).lastAttempt))) } ∧
    (verifyCredentials exThrottledState "a@b.com" "pw" "1.2.3.4" "UA" 60000
        "123456" "cid" true false).2 = exThrottledState ∧
    verifyCredentials exThrottledState "a@b.com" "pw" "1.2.3.4" "UA" 900000
        "123456" "cid" true false =
      verifyCredentials
        { exThrottledState with
            loginAttempts := mapErase exThrottledState.loginAttempts "1.2.3.4" }
        "a@b.com" "pw" "1.2.3.4" "UA" 900000 "123456" "cid" true false :=
  ⟨⟨by decide, by decide, by decide, by decide⟩,
   c3_throttle_lockout exThrottledState ⟨3, 0⟩ "a@b.com" "pw" "1.2.3.4" "UA"
     "123456" "cid" 60000 900000 true false
     (by decide) (by decide) (by decide) (by decide)⟩

/-- C10: a call rejected by the throttle returns before any recording,
so the whole state, and in particular the login-attempt map, is left
unchanged; the throttle blocks strictly before lockoutDuration has
elapsed since the last recorded failure and allows, clearing the
entry, from that exact boundary on. -/
theorem c10_rejected_attempt_frame (st : AuthState) (a : LoginAttempt)
    (email password ip userAgent code codeId : String)
    (now1 now2 : Int) (dispatchOk devMode : Bool)
    (ha : mapLookup st.loginAttempts ip = some a)
    (hc : maxLoginAttempts ≤ a.count)
    (h1 : now1 - a.lastAttempt < lockoutDuration)
    (h2 : lockoutDuration ≤ now2 - a.lastAttempt) :
    (verifyCredentials st email password ip userAgent now1 code codeId
        dispatchOk devMode).2 = st ∧
    (verifyCredentials st email password ip userAgent now1 code codeId
        dispatchOk devMode).2.loginAttempts = st.loginAttempts ∧
    (verifyCredentials st email password ip userAgent now1 code codeId
        dispatchOk devMode).1.success = false ∧
    (checkLoginAttempts st ip now1).1.allowed = false ∧
    (checkLoginAttempts st ip now2).1.allowed = true ∧
    (checkLoginAttempts st ip now2).2.loginAttempts =
      mapErase st.loginAttempts ip := by
  have h2n : ¬ now2 - a.lastAttempt < lockoutDuration := not_lt.mpr h2
  refine ⟨?_, ?_, ?_, ?_, ?_, ?_⟩ <;>
    simp [verifyCredentials, checkLoginAttempts, ha, hc, h1, h2n]

/-- Witness instantiating the C10 theorem on a concrete locked state. -/
theorem c10_rejected_attempt_frame_witness :
    (mapLookup exThrottledState.loginAttempts "1.2.3.4" = some ⟨3, 0⟩ ∧
     maxLoginAttempts ≤ (⟨3, 0⟩ : LoginAttempt).count ∧
     (60000 : Int) - (⟨3, 0⟩ : LoginAttempt).lastAttempt < lockoutDuration ∧
     lockoutDuration ≤ (900000 : Int) - (⟨3, 0⟩ : LoginAttempt).lastAttempt) ∧
    (verifyCredentials exThrottledState "a@b.com" "pw" "1.2.3.4" "UA" 60000
        "123456" "cid" true false).2 = exThrottledState ∧
    (verifyCredentials exThrottledState "a@b.com" "pw" "1.2.3.4" "UA" 60000
        "123456" "cid" true false).2.loginAttempts =
      exThrottledState.loginAttempts ∧
    (verifyCredentials exThrottledState "a@b.com" "pw" "1.2.3.4" "UA" 60000
        "123456" "cid" true false).1.success = false ∧
    (checkLoginAttempts exThrottledState "1.2.3.4" 60000).1.allowed = false ∧
    (checkLoginAttempts exThrottledState "1.2.3.4" 900000).1.allowed = true ∧
    (checkLoginAttempts exThrottledState "1.2.3.4" 900000).2.loginAttempts =
      mapErase exThrottledState.loginAttempts "1.2.3.4" :=
  ⟨⟨by decide, by decide, by decide, by decide⟩,
   c10_rejected_attempt_frame exThrottledState ⟨3, 0⟩ "a@b.com" "pw" "1.2.3.4"
     "UA" "123456" "cid" 60000 900000 true false
     (by decide) (by decide) (by decide) (by decide)⟩

/-- Example credential store with one inactive and one active user and
an empty throttle map, used by the C6 witness. -/
def exMultiUserState : AuthState :=
  ⟨[⟨2, "inactive@x.com", "Ina", "admin", bcryptHash "pw2", false, []⟩,
    ⟨3, "active@x.com", "Act", "admin", bcryptHash "pw3", true, []⟩],
   [], [], [], []⟩

/-- C6: an absent user, an inactive user and a wrong password all make
verifyCredentials return the identical failure record, success flag
false with the invalid-credentials message, and each of the three
cases records exactly one failed attempt for the source address. -/
theorem c6_indistinguishable_failures (st : AuthState) (u2 u3 : User)
    (e1 p1 e2 p2 e3 p3 ip userAgent code codeId : String) (now : Int)
    (dispatchOk devMode : Bool)
    (hChk : checkLoginAttempts st ip now = ({ allowed := true }, st))
    (h1 : getUserByEmail st.users (toLowerStr e1) = none)
    (h2 : getUserByEmail st.users (toLowerStr e2) = some u2)
    (h2a : u2.isActive = false)
    (h3 : getUserByEmail st.users (toLowerStr e3) = some u3)
    (h3a : u3.isActive = true)
    (h3p : bcryptCompare p3 u3.passwordHash = false) :
    (verifyCredentials st e1 p1 ip userAgent now code codeId dispatchOk
        devMode).1 =
      { success := false, message := "Invalid credentials" } ∧
    (verifyCredentials st e2 p2 ip userAgent now code codeId dispatchOk
        devMode).1 =
      { success := false, message := "Invalid credentials" } ∧
    (verifyCredentials st e3 p3 ip userAgent now code codeId dispatchOk
        devMode).1 =
      { success := false, message := "Invalid credentials" } ∧
    (verifyCredentials st e1 p1 ip userAgent now code codeId dispatchOk
        devMode).2.loginAttempts =
      mapInsert st.loginAttempts ip
        ⟨((mapLookup st.loginAttempts ip).getD ⟨0, 0⟩).count + 1, now⟩ ∧
    (verifyCredentials st e2 p2 ip userAgent now code codeId dispatchOk
        devMode).2.loginAttempts =
      mapInsert st.loginAttempts ip
        ⟨((mapLookup st.loginAttempts ip).getD ⟨0, 0⟩).count + 1, now⟩ ∧
    (verifyCredentials st e3 p3 ip userAgent now code codeId dispatchOk
        devMode).2.loginAttempts =
      mapInsert st.loginAttempts ip
        ⟨((mapLookup st.loginAttempts ip).getD ⟨0, 0⟩).count + 1, now⟩ := by
  refine ⟨?_, ?_, ?_, ?_, ?_, ?_⟩ <;>
    simp [verifyCredentials, verifyCredentialsAfterThrottle, hChk, h1, h2,
      h2a, h3, h3a, h3p, recordLoginAttempt, logActivity]

/-- Witness instantiating the C6 theorem on a concrete store. -/
theorem c6_indistinguishable_failures_witness :
    (checkLoginAttempts exMultiUserState "9.9.9.9" 5 =
       ({ allowed := true }, exMultiUserState) ∧
     getUserByEmail exMultiUserState.users (toLowerStr "ghost@x.com") = none ∧
     getUserByEmail exMultiUserState.users (toLowerStr "inactive@x.com") =
       some ⟨2, "inactive@x.com", "Ina", "admin", bcryptHash "pw2", false, []⟩ ∧
     getUserByEmail exMultiUserState.users (toLowerStr "active@x.com") =
       some ⟨3, "active@x.com", "Act", "admin", bcryptHash "pw3", true, []⟩ ∧
     bcryptCompare "wrong"
       (⟨3, "active@x.com", "Act", "admin", bcryptHash "pw3", true, []⟩ :
         User).passwordHash = false) ∧
    (verifyCredentials exMultiUserState "ghost@x.com" "p1" "9.9.9.9" "UA" 5
        "123456" "cid" true false).1 =
      { success := false, message := "Invalid credentials" } ∧
    (verifyCredentials exMultiUserState "inactive@x.com" "p2" "9.9.9.9" "UA" 5
        "123456" "cid" true false).1 =
      { success := false, message := "Invalid credentials" } ∧
    (verifyCredentials exMultiUserState "active@x.com" "wrong" "9.9.9.9" "UA" 5
        "123456" "cid" true false).1 =
      { success := false, message := "Invalid credentials" } ∧
    (verifyCredentials exMultiUserState "ghost@x.com" "p1" "9.9.9.9" "UA" 5
        "123456" "cid" true false).2.loginAttempts =
      mapInsert exMultiUserState.loginAttempts "9.9.9.9"
        ⟨((mapLookup exMultiUserState.loginAttempts "9.9.9.9").getD
            ⟨0, 0⟩).count + 1, 5⟩ ∧
    (verifyCredentials exMultiUserState "inactive@x.com" "p2" "9.9.9.9" "UA" 5
        "123456" "cid" true false).2.loginAttempts =
      mapInsert exMultiUserState.loginAttempts "9.9.9.9"
        ⟨((mapLookup exMultiUserState.loginAttempts "9.9.9.9").getD
            ⟨0, 0⟩).count + 1, 5⟩ ∧
    (verifyCredentials exMultiUserState "active@x.com" "wrong" "9.9.9.9" "UA" 5
        "123456" "cid" true false).2.loginAttempts =
      mapInsert exMultiUserState.loginAttempts "9.9.9.9"
        ⟨((mapLookup exMultiUserState.loginAttempts "9.9.9.9").getD
            ⟨0, 0⟩).count + 1, 5⟩ :=
  ⟨⟨by decide, by decide, by decide, by decide, by decide⟩,
   c6_indistinguishable_failures exMultiUserState
     ⟨2, "inactive@x.com", "Ina", "admin", bcryptHash "pw2", false, []⟩
     ⟨3, "active@x.com", "Act", "admin", bcryptHash "pw3", true, []⟩
     "ghost@x.com" "p1" "inactive@x.com" "p2" "active@x.com" "wrong"
     "9.9.9.9" "UA" "123456" "cid" 5 true false
     (by decide) (by decide) (by decide) (by decide) (by decide) (by decide)
     (by decide)⟩

/-- C4: no failing run of the second login step touches the session
store or returns a token; when the cached entry passes the expiry,
replay, origin and code checks but the re-fetched owner is absent or
inactive, the call fails with the user-unavailable message and issues
no session; and a successful run requires the re-fetched owner to
exist with its active flag set, appending exactly the one session it
creates for that user. -/
theorem c4_no_session_without_active_user
    (st1 : AuthState) (cid1 code1 ip1 tok1 : String) (now1 : Int)
    (st2 : AuthState) (v2 : VerificationCode) (cid2 code2 ip2 tok2 : String)
    (now2 : Int)
    (st3 : AuthState) (v3 : VerificationCode) (u3 : User)
    (cid3 code3 ip3 tok3 : String) (now3 : Int)
    (hfail : (verify2FACode st1 cid1 code1 ip1 now1 tok1).1.success = false)
    (hv2 : mapLookup st2.verificationCodes cid2 = some v2)
    (hexp2 : ¬ v2.expiresAt < now2)
    (hused2 : v2.used = false)
    (hip2 : v2.ip = ip2)
    (hcode2 : v2.code = code2)
    (hu2 : ((getUserByEmail st2.users v2.email).all fun u => !u.isActive)
      = true)
    (hv3 : mapLookup st3.verificationCodes cid3 = some v3)
    (hu3 : getUserByEmail st3.users v3.email = some u3)
    (hsucc3 : (verify2FACode st3 cid3 code3 ip3 now3 tok3).1.success = true) :
    ((verify2FACode st1 cid1 code1 ip1 now1 tok1).2.sessions = st1.sessions ∧
     (verify2FACode st1 cid1 code1 ip1 now1 tok1).1.sessionToken = none) ∧
    ((verify2FACode st2 cid2 code2 ip2 now2 tok2).1.success = false ∧
     (verify2FACode st2 cid2 code2 ip2 now2 tok2).1.message =
       "User not found or inactive" ∧
     (verify2FACode st2 cid2 code2 ip2 now2 tok2).1.sessionToken = none ∧
     (verify2FACode st2 cid2 code2 ip2 now2 tok2).2.sessions = st2.sessions) ∧
    (u3.isActive = true ∧
     (verify2FACode st3 cid3 code3 ip3 now3 tok3).2.sessions =
       st3.sessions ++
         [⟨u3.id, tok3, ip3, v3.userAgent, true, now3 + sessionExpiry⟩]) := by
  refine ⟨?_, ?_, ?_⟩
  · rcases verify2FACode_outcome st1 cid1 code1 ip1 now1 tok1 with h | h
    · exact ⟨h.2.1, h.2.2⟩
    · exact absurd h.1 (by simp [hfail])
  · cases hres : getUserByEmail st2.users v2.email with
    | none =>
      refine ⟨?_, ?_, ?_, ?_⟩ <;>
        simp [verify2FACode, hv2, hexp2, hused2, hip2, hcode2, hres]
    | some u =>
      have hina : u.isActive = false := by
        rw [hres] at hu2
        simpa using hu2
      refine ⟨?_, ?_, ?_, ?_⟩ <;>
        simp [verify2FACode, hv2, hexp2, hused2, hip2, hcode2, hres, hina]
  · rcases verify2FACode_outcome st3 cid3 code3 ip3 now3 tok3 with h | h
    · exact absurd hsucc3 (by simp [h.1])
    · obtain ⟨-, v, u, hv, hu, hact, hsess, -⟩ := h
      have hvv : v = v3 := Option.some.inj (hv.symm.trans hv3)
      subst hvv
      have huu : u = u3 := Option.some.inj (hu.symm.trans hu3)
      subst huu
      exact ⟨hact, hsess⟩

/-- Witness instantiating the C4 theorem on concrete states. -/
theorem c4_no_session_without_active_user_witness :
    ((verify2FACode exGhostState "cid" "123456" "1.2.3.4" 500 "t").1.success
       = false ∧
     mapLookup exGhostState.verificationCodes "cid" =
       some ⟨"123456", "ghost@b.com", "1.2.3.4", "UA", 1000, false⟩ ∧
     ¬ (⟨"123456", "ghost@b.com", "1.2.3.4", "UA", 1000, false⟩ :
       VerificationCode).expiresAt < 500 ∧
     ((getUserByEmail exGhostState.users "ghost@b.com").all
       fun u => !u.isActive) = true ∧
     mapLookup exCodeState.verificationCodes "cid" =
       some ⟨"123456", "a@b.com", "1.2.3.4", "UA", 1000, false⟩ ∧
     getUserByEmail exCodeState.users "a@b.com" = some exUser ∧
     (verify2FACode exCodeState "cid" "123456" "1.2.3.4" 500 "t").1.success
       = true) ∧
    ((verify2FACode exGhostState "cid" "123456" "1.2.3.4" 500 "t").2.sessions
       = exGhostState.sessions ∧
     (verify2FACode exGhostState "cid" "123456" "1.2.3.4" 500 "t").1.sessionToken
       = none) ∧
    ((verify2FACode exGhostState "cid" "123456" "1.2.3.4" 500 "t").1.success
       = false ∧
     (verify2FACode exGhostState "cid" "123456" "1.2.3.4" 500 "t").1.message =
       "User not found or inactive" ∧
     (verify2FACode exGhostState "cid" "123456" "1.2.3.4" 500 "t").1.sessionToken
       = none ∧
     (verify2FACode exGhostState "cid" "123456" "1.2.3.4" 500 "t").2.sessions
       = exGhostState.sessions) ∧
    (exUser.isActive = true ∧
     (verify2FACode exCodeState "cid" "123456" "1.2.3.4" 500 "t").2.sessions =
       exCodeState.sessions ++
         [⟨exUser.id, "t", "1.2.3.4",
           (⟨"123456", "a@b.com", "1.2.3.4", "UA", 1000, false⟩ :
             VerificationCode).userAgent, true, 500 + sessionExpiry⟩]) :=
  ⟨⟨by decide, by decide, by decide, by decide, by decide, by decide,
    by decide⟩,
   c4_no_session_without_active_user exGhostState "cid" "123456" "1.2.3.4" "t"
     500 exGhostState ⟨"123456", "ghost@b.com", "1.2.3.4", "UA", 1000, false⟩
     "cid" "123456" "1.2.3.4" "t" 500
     exCodeState ⟨"123456", "a@b.com", "1.2.3.4", "UA", 1000, false⟩ exUser
     "cid" "123456" "1.2.3.4" "t" 500
     (by decide) (by decide) (by decide) (by decide) (by decide) (by decide)
     (by decide) (by decide) (by decide) (by decide)⟩

/-- Deactivating a token rewrites exactly the found session, so the
lookup after the write-back returns the same record with its active
flag cleared. -/
theorem getAuthSession_deactivate (sessions : List AuthSession)
    (tok : String) :
    getAuthSession (deactivateSession sessions tok) tok =
      (getAuthSession sessions tok).map
        (fun s =>
          if s.sessionToken == tok then { s with isActive := false } else s) := by
  unfold getAuthSession deactivateSession
  refine find?_map_pred _ _ sessions ?_
  intro x
  by_cases h : x.sessionToken == tok <;> simp_all

/-- C5: verifySession on an active session whose expiry has passed
reports invalid with the expired message and, as its only side effect,
clears that session's active flag in the session store; a second call
on the same token then reports invalid through the inactive check and
changes nothing, so the treatment of an expired session is idempotent. -/
theorem c5_expired_session_idempotent (st : AuthState) (s : AuthSession)
    (tok : String) (now now2 : Int)
    (htok : ¬ tok = "")
    (hs : getAuthSession st.sessions tok = some s)
    (hact : s.isActive = true)
    (hexp : s.expiresAt < now) :
    (verifySession st tok now).1.valid = false ∧
    (verifySession st tok now).1.message = some "Session expired" ∧
    (verifySession st tok now).2.users = st.users ∧
    (verifySession st tok now).2.verificationCodes = st.verificationCodes ∧
    (verifySession st tok now).2.loginAttempts = st.loginAttempts ∧
    (verifySession st tok now).2.activityLogs = st.activityLogs ∧
    (verifySession st tok now).2.sessions =
      deactivateSession st.sessions tok ∧
    getAuthSession (verifySession st tok now).2.sessions tok =
      some { s with isActive := false } ∧
    (verifySession (verifySession st tok now).2 tok now2).1.valid = false ∧
    (verifySession (verifySession st tok now).2 tok now2).1.message =
      some "Session is inactive" ∧
    (verifySession (verifySession st tok now).2 tok now2).2 =
      (verifySession st tok now).2 := by
  have hs2 : List.find? (fun x => x.sessionToken == tok) st.sessions
      = some s := by
    simpa [getAuthSession] using hs
  have hstok := List.find?_some hs2
  have heq : s.sessionToken = tok := by simpa using hstok
  have hfirst : verifySession st tok now =
      ({ valid := false, message := some "Session expired" },
       { st with sessions := deactivateSession st.sessions tok }) := by
    simp [verifySession, htok, hs, hact, hexp]
  have hlookup2 : getAuthSession (deactivateSession st.sessions tok) tok =
      some { s with isActive := false } := by
    rw [getAuthSession_deactivate, hs]
    simp [heq]
  have hsecond :
      verifySession { st with sessions := deactivateSession st.sessions tok }
        tok now2 =
      ({ valid := false, message := some "Session is inactive" },
       { st with sessions := deactivateSession st.sessions tok }) := by
    simp [verifySession, htok, hlookup2]
  refine ⟨?_, ?_, ?_, ?_, ?_, ?_, ?_, ?_, ?_, ?_, ?_⟩ <;>
    simp [hfirst, hsecond, hlookup2]

/-- Example session fixture, active but already past its expiry. -/
def exSessState : AuthState :=
  ⟨[exUser], [⟨1, "tok", "1.2.3.4", "UA", true, 100⟩], [], [], []⟩

/-- Witness instantiating the C5 theorem on a concrete state. -/
theorem c5_expired_session_idempotent_witness :
    (¬ "tok" = "" ∧
     getAuthSession exSessState.sessions "tok" =
       some ⟨1, "tok", "1.2.3.4", "UA", true, 100⟩ ∧
     (⟨1, "tok", "1.2.3.4", "UA", true, 100⟩ : AuthSession).isActive = true ∧
     (⟨1, "tok", "1.2.3.4", "UA", true, 100⟩ : AuthSession).expiresAt < 200) ∧
    (verifySession exSessState "tok" 200).1.valid = false ∧
    (verifySession exSessState "tok" 200).1.message = some "Session expired" ∧
    (verifySession exSessState "tok" 200).2.users = exSessState.users ∧
    (verifySession exSessState "tok" 200).2.verificationCodes =
      exSessState.verificationCodes ∧
    (verifySession exSessState "tok" 200).2.loginAttempts =
      exSessState.loginAttempts ∧
    (verifySession exSessState "tok" 200).2.activityLogs =
      exSessState.activityLogs ∧
    (verifySession exSessState "tok" 200).2.sessions =
      deactivateSession exSessState.sessions "tok" ∧
    getAuthSession (verifySession exSessState "tok" 200).2.sessions "tok" =
      some { (⟨1, "tok", "1.2.3.4", "UA", true, 100⟩ : AuthSession) with
        isActive := false } ∧
    (verifySession (verifySession exSessState "tok" 200).2 "tok" 300).1.valid
      = false ∧
    (verifySession (verifySession exSessState "tok" 200).2 "tok" 300).1.message
      = some "Session is inactive" ∧
    (verifySession (verifySession exSessState "tok" 200).2 "tok" 300).2 =
      (verifySession exSessState "tok" 200).2 :=
  ⟨⟨by decide, by decide, by decide, by decide⟩,
   c5_expired_session_idempotent exSessState
     ⟨1, "tok", "1.2.3.4", "UA", true, 100⟩ "tok" 200 300
     (by decide) (by decide) (by decide) (by decide)⟩

/-- C8: marking a code used and then finding its owner absent or
inactive leaves the entry cached with the used flag set, undeleted;
every later submission of that code identifier before its expiry,
whatever code or address it supplies, fails with the already-used
message and changes nothing, so that failure permanently burns the
code even though no session was issued. -/
theorem c8_user_unavailable_burns_code (st : AuthState)
    (v : VerificationCode) (codeId inputCode ip tok : String) (now : Int)
    (code2 ip2 tok2 : String) (now2 : Int)
    (hv : mapLookup st.verificationCodes codeId = some v)
    (hexp : ¬ v.expiresAt < now)
    (hused : v.used = false)
    (hip : v.ip = ip)
    (hcode : v.code = inputCode)
    (hu : ((getUserByEmail st.users v.email).all fun u => !u.isActive) = true)
    (hexp2 : ¬ v.expiresAt < now2) :
    (verify2FACode st codeId inputCode ip now tok).1.success = false ∧
    (verify2FACode st codeId inputCode ip now tok).1.message =
      "User not found or inactive" ∧
    (verify2FACode st codeId inputCode ip now tok).2.verificationCodes =
      mapInsert st.verificationCodes codeId { v with used := true } ∧
    mapLookup (verify2FACode st codeId inputCode ip now
      tok).2.verificationCodes codeId = some { v with used := true } ∧
    (verify2FACode (verify2FACode st codeId inputCode ip now tok).2
        codeId code2 ip2 now2 tok2).1.success = false ∧
    (verify2FACode (verify2FACode st codeId inputCode ip now tok).2
        codeId code2 ip2 now2 tok2).1.message =
      "Verification code already used" ∧
    (verify2FACode (verify2FACode st codeId inputCode ip now tok).2
        codeId code2 ip2 now2 tok2).2 =
      (verify2FACode st codeId inputCode ip now tok).2 := by
  have hrun : verify2FACode st codeId inputCode ip now tok =
      ({ success := false, message := "User not found or inactive" },
       { st with verificationCodes :=
           mapInsert st.verificationCodes codeId { v with used := true } }) := by
    cases hres : getUserByEmail st.users v.email with
    | none => simp [verify2FACode, hv, hexp, hused, hip, hcode, hres]
    | some u =>
      have hina : u.isActive = false := by
        rw [hres] at hu
        simpa using hu
      simp [verify2FACode, hv, hexp, hused, hip, hcode, hres, hina]
  have hlook : mapLookup (mapInsert st.verificationCodes codeId
      { v with used := true }) codeId = some { v with used := true } :=
    mapLookup_insert_self _ _ _
  refine ⟨?_, ?_, ?_, ?_, ?_, ?_, ?_⟩ <;>
    (simp only [hrun]
     try simp [verify2FACode, hlook, hexp2])

/-- Witness instantiating the C8 theorem on a concrete state. -/
theorem c8_user_unavailable_burns_code_witness :
    (mapLookup exGhostState.verificationCodes "cid" =
       some ⟨"123456", "ghost@b.com", "1.2.3.4", "UA", 1000, false⟩ ∧
     ¬ (⟨"123456", "ghost@b.com", "1.2.3.4", "UA", 1000, false⟩ :
       VerificationCode).expiresAt < 500 ∧
     ((getUserByEmail exGhostState.users "ghost@b.com").all
       fun u => !u.isActive) = true ∧
     ¬ (⟨"123456", "ghost@b.com", "1.2.3.4", "UA", 1000, false⟩ :
       VerificationCode).expiresAt < 600) ∧
    (verify2FACode exGhostState "cid" "123456" "1.2.3.4" 500 "t").1.success
      = false ∧
    (verify2FACode exGhostState "cid" "123456" "1.2.3.4" 500 "t").1.message =
      "User not found or inactive" ∧
    (verify2FACode exGhostState "cid" "123456" "1.2.3.4" 500
      "t").2.verificationCodes =
      mapInsert exGhostState.verificationCodes "cid"
        { (⟨"123456", "ghost@b.com", "1.2.3.4", "UA", 1000, false⟩ :
            VerificationCode) with used := true } ∧
    mapLookup (verify2FACode exGhostState "cid" "123456" "1.2.3.4" 500
      "t").2.verificationCodes "cid" =
      some { (⟨"123456", "ghost@b.com", "1.2.3.4", "UA", 1000, false⟩ :
          VerificationCode) with used := true } ∧
    (verify2FACode (verify2FACode exGhostState "cid" "123456" "1.2.3.4" 500
        "t").2 "cid" "999999" "9.9.9.9" 600 "t2").1.success = false ∧
    (verify2FACode (verify2FACode exGhostState "cid" "123456" "1.2.3.4" 500
        "t").2 "cid" "999999" "9.9.9.9" 600 "t2").1.message =
      "Verification code already used" ∧
    (verify2FACode (verify2FACode exGhostState "cid" "123456" "1.2.3.4" 500
        "t").2 "cid" "999999" "9.9.9.9" 600 "t2").2 =
      (verify2FACode exGhostState "cid" "123456" "1.2.3.4" 500 "t").2 :=
  ⟨⟨by decide, by decide, by decide, by decide⟩,
   c8_user_unavailable_burns_code exGhostState
     ⟨"123456", "ghost@b.com", "1.2.3.4", "UA", 1000, false⟩
     "cid" "123456" "1.2.3.4" "t" 500 "999999" "9.9.9.9" "t2" 600
     (by decide) (by decide) (by decide) (by decide) (by decide) (by decide)
     (by decide)⟩

/-- C9: when the outbound dispatch fails outside development mode, the
first login step returns failure without a code identifier, yet the
verification code entry stored before the dispatch stays in the cache
exactly as written with no other state change; the entry disappears
through the expiry check of a later second-step lookup, or through the
periodic cleanup sweep, once its expiry has passed. -/
theorem c9_dispatch_failure_keeps_entry (st : AuthState) (u : User)
    (email password ip userAgent code codeId : String) (now now2 : Int)
    (code2 ip2 tok2 : String)
    (hChk : checkLoginAttempts st ip now = ({ allowed := true }, st))
    (hu : getUserByEmail st.users (toLowerStr email) = some u)
    (hact : u.isActive = true)
    (hpw : bcryptCompare password u.passwordHash = true)
    (hwl : isIPWhitelisted u ip false = true)
    (hfresh : mapLookup st.verificationCodes codeId = none)
    (hlater : now + codeExpiry < now2) :
    (verifyCredentials st email password ip userAgent now code codeId false
        false).1 =
      { success := false, message := "Failed to send verification code" } ∧
    (verifyCredentials st email password ip userAgent now code codeId false
        false).2 =
      { st with verificationCodes := mapInsert st.verificationCodes codeId ⟨code, u.email, ip, userAgent, now + codeExpiry, false⟩ } ∧
    mapLookup (verifyCredentials st email password ip userAgent now code
      codeId false false).2.verificationCodes codeId =
      some ⟨code, u.email, ip, userAgent, now + codeExpiry, false⟩ ∧
    mapLookup (cleanupExpiredData (verifyCredentials st email password ip
      userAgent now code codeId false false).2 now2).verificationCodes
      codeId = none ∧
    (verify2FACode (verifyCredentials st email password ip userAgent now code
        codeId false false).2 codeId code2 ip2 now2 tok2).1.message =
      "Verification code expired" ∧
    mapLookup (verify2FACode (verifyCredentials st email password ip userAgent
      now code codeId false false).2 codeId code2 ip2 now2
      tok2).2.verificationCodes codeId = none := by
  have hrun : verifyCredentials st email password ip userAgent now code codeId
      false false =
      ({ success := false, message := "Failed to send verification code" },
       { st with verificationCodes := mapInsert st.verificationCodes codeId ⟨code, u.email, ip, userAgent, now + codeExpiry, false⟩ }) := by
    simp [verifyCredentials, hChk, verifyCredentialsAfterThrottle, hu, hact,
      hpw, hwl, sendVerificationCode]
  have hlook : mapLookup (mapInsert st.verificationCodes codeId
      ⟨code, u.email, ip, userAgent, now + codeExpiry, false⟩) codeId =
      some ⟨code, u.email, ip, userAgent, now + codeExpiry, false⟩ :=
    mapLookup_insert_self _ _ _
  have hclean : mapLookup ((mapInsert st.verificationCodes codeId
      ⟨code, u.email, ip, userAgent, now + codeExpiry, false⟩).filter
        (fun p => !(decide (p.2.expiresAt < now2)))) codeId = none := by
    rw [mapLookup_insert_filter_fresh _ _ _ _ hfresh]
    simp [hlater]
  refine ⟨?_, ?_, ?_, ?_, ?_, ?_⟩ <;>
    (simp only [hrun]
     try simp [hlook, cleanupExpiredData, hclean, verify2FACode, hlater,
       mapLookup_erase_self])

/-- Example store for the C9 witness: one active user, empty maps. -/
def exActiveState : AuthState :=
  ⟨[⟨7, "a@b.com", "Alice", "admin", bcryptHash "secret123", true, []⟩],
   [], [], [], []⟩

/-- Witness instantiating the C9 theorem on a concrete state. -/
theorem c9_dispatch_failure_keeps_entry_witness :
    (checkLoginAttempts exActiveState "1.2.3.4" 0 =
       ({ allowed := true }, exActiveState) ∧
     getUserByEmail exActiveState.users (toLowerStr "a@b.com") =
       some ⟨7, "a@b.com", "Alice", "admin", bcryptHash "secret123", true,
         []⟩ ∧
     bcryptCompare "secret123"
       (⟨7, "a@b.com", "Alice", "admin", bcryptHash "secret123", true, []⟩ :
         User).passwordHash = true ∧
     isIPWhitelisted
       ⟨7, "a@b.com", "Alice", "admin", bcryptHash "secret123", true, []⟩
       "1.2.3.4" false = true ∧
     mapLookup exActiveState.verificationCodes "cid" = none ∧
     (0 : Int) + codeExpiry < 999999999) ∧
    (verifyCredentials exActiveState "a@b.com" "secret123" "1.2.3.4" "UA" 0
        "123456" "cid" false false).1 =
      { success := false, message := "Failed to send verification code" } ∧
    (verifyCredentials exActiveState "a@b.com" "secret123" "1.2.3.4" "UA" 0
        "123456" "cid" false false).2 =
      { exActiveState with verificationCodes := mapInsert exActiveState.verificationCodes "cid" ⟨"123456", (⟨7, "a@b.com", "Alice", "admin", bcryptHash "secret123", true, []⟩ : User).email, "1.2.3.4", "UA", (0 : Int) + codeExpiry, false⟩ } ∧
    mapLookup (verifyCredentials exActiveState "a@b.com" "secret123" "1.2.3.4"
      "UA" 0 "123456" "cid" false false).2.verificationCodes "cid" =
      some ⟨"123456",
        (⟨7, "a@b.com", "Alice", "admin", bcryptHash "secret123", true, []⟩ :
          User).email, "1.2.3.4", "UA", (0 : Int) + codeExpiry, false⟩ ∧
    mapLookup (cleanupExpiredData (verifyCredentials exActiveState "a@b.com"
      "secret123" "1.2.3.4" "UA" 0 "123456" "cid" false
      false).2 999999999).verificationCodes "cid" = none ∧
    (verify2FACode (verifyCredentials exActiveState "a@b.com" "secret123"
        "1.2.3.4" "UA" 0 "123456" "cid" false false).2 "cid" "999999"
        "9.9.9.9" 999999999 "t2").1.message = "Verification code expired" ∧
    mapLookup (verify2FACode (verifyCredentials exActiveState "a@b.com"
      "secret123" "1.2.3.4" "UA" 0 "123456" "cid" false false).2 "cid"
      "999999" "9.9.9.9" 999999999 "t2").2.verificationCodes "cid" = none :=
  ⟨⟨by decide, by decide, by decide, by decide, by decide, by decide⟩,
   c9_dispatch_failure_keeps_entry exActiveState
     ⟨7, "a@b.com", "Alice", "admin", bcryptHash "secret123", true, []⟩
     "a@b.com" "secret123" "1.2.3.4" "UA" "123456" "cid" 0 999999999
     "999999" "9.9.9.9" "t2"
     (by decide) (by decide) (by decide) (by decide) (by decide) (by decide)
     (by decide)⟩

/-- C7: changePassword rejects a non-matching current password and
leaves the whole state, in particular the stored hash, untouched; on a
match it persists the hash of the new password for the user, after
which a login with the old password fails verifyCredentials with the
invalid-credentials failure. -/
theorem c7_change_password (stA : AuthState) (uA : User) (uidA : Nat)
    (wrongA newA : String)
    (st : AuthState) (u : User) (uid : Nat)
    (cur new email ip userAgent code codeId : String) (now : Int)
    (dispatchOk devMode : Bool)
    (hA1 : getUser stA.users uidA = some uA)
    (hA2 : bcryptCompare wrongA uA.passwordHash = false)
    (hB1 : getUser st.users uid = some u)
    (hB2 : bcryptCompare cur u.passwordHash = true)
    (hB3 : getUserByEmail st.users (toLowerStr email) = some u)
    (hB4 : cur ≠ new)
    (hB5 : mapLookup st.loginAttempts ip = none) :
    changePassword stA uidA wrongA newA =
      ((false, "Current password is incorrect"), stA) ∧
    (changePassword st uid cur new).1 =
      (true, "Password changed successfully") ∧
    getUser (changePassword st uid cur new).2.users uid =
      some { u with passwordHash := bcryptHash new } ∧
    (verifyCredentials (changePassword st uid cur new).2 email cur ip
        userAgent now code codeId dispatchOk devMode).1.success = false ∧
    (verifyCredentials (changePassword st uid cur new).2 email cur ip
        userAgent now code codeId dispatchOk devMode).1.message =
      "Invalid credentials" := by
  have hfindid : List.find? (fun x => x.id == uid) st.users = some u := by
    simpa [getUser] using hB1
  have hid : u.id = uid := by simpa using List.find?_some hfindid
  have husers : (changePassword st uid cur new).2.users =
      updateUserPasswordHash st.users uid (bcryptHash new) := by
    simp [changePassword, hB1, hB2, logActivity]
  have hattempts : (changePassword st uid cur new).2.loginAttempts =
      st.loginAttempts := by
    simp [changePassword, hB1, hB2, logActivity]
  have hpres1 : ∀ x : User,
      ((if x.id == uid then { x with passwordHash := bcryptHash new } else
        x).id == uid) = (x.id == uid) := by
    intro x
    by_cases hx : x.id == uid <;> simp [hx]
  have hfind1 : getUser (updateUserPasswordHash st.users uid (bcryptHash new))
      uid = some { u with passwordHash := bcryptHash new } := by
    unfold getUser updateUserPasswordHash
    rw [find?_map_pred _ _ _ hpres1, hfindid]
    simp [hid]
  have hpres2 : ∀ x : User,
      ((if x.id == uid then { x with passwordHash := bcryptHash new } else
        x).email == toLowerStr email) = (x.email == toLowerStr email) := by
    intro x
    by_cases hx : x.id == uid <;> simp [hx]
  have hfind2 : getUserByEmail
      (updateUserPasswordHash st.users uid (bcryptHash new))
      (toLowerStr email) = some { u with passwordHash := bcryptHash new } := by
    unfold getUserByEmail updateUserPasswordHash
    rw [find?_map_pred _ _ _ hpres2,
      show List.find? (fun x => x.email == toLowerStr email) st.users = some u
        by simpa [getUserByEmail] using hB3]
    simp [hid]
  have hcmp : bcryptCompare cur (bcryptHash new) = false := by
    have hne : bcryptHash new ≠ bcryptHash cur :=
      fun hc => hB4 (bcryptHash_inj hc).symm
    simp [bcryptCompare, hne]
  have hver : (verifyCredentials (changePassword st uid cur new).2 email cur
      ip userAgent now code codeId dispatchOk devMode).1 =
      { success := false, message := "Invalid credentials" } := by
    cases hca : u.isActive with
    | false =>
      simp [verifyCredentials, checkLoginAttempts, hattempts, hB5,
        verifyCredentialsAfterThrottle, husers, hfind2, hca]
    | true =>
      simp [verifyCredentials, checkLoginAttempts, hattempts, hB5,
        verifyCredentialsAfterThrottle, husers, hfind2, hca, hcmp]
  refine ⟨?_, ?_, ?_, ?_, ?_⟩
  · simp [changePassword, hA1, hA2]
  · simp [changePassword, hB1, hB2]
  · rw [husers]
    exact hfind1
  · rw [hver]
  · rw [hver]

/-- Witness instantiating the C7 theorem on a concrete store. -/
theorem c7_change_password_witness :
    (getUser exMultiUserState.users 3 =
       some ⟨3, "active@x.com", "Act", "admin", bcryptHash "pw3", true, []⟩ ∧
     bcryptCompare "nope"
       (⟨3, "active@x.com", "Act", "admin", bcryptHash "pw3", true, []⟩ :
         User).passwordHash = false ∧
     bcryptCompare "pw3"
       (⟨3, "active@x.com", "Act", "admin", bcryptHash "pw3", true, []⟩ :
         User).passwordHash = true ∧
     getUserByEmail exMultiUserState.users (toLowerStr "active@x.com") =
       some ⟨3, "active@x.com", "Act", "admin", bcryptHash "pw3", true, []⟩ ∧
     "pw3" ≠ "pw4" ∧
     mapLookup exMultiUserState.loginAttempts "9.9.9.9" = none) ∧
    changePassword exMultiUserState 3 "nope" "x" =
      ((false, "Current password is incorrect"), exMultiUserState) ∧
    (changePassword exMultiUserState 3 "pw3" "pw4").1 =
      (true, "Password changed successfully") ∧
    getUser (changePassword exMultiUserState 3 "pw3" "pw4").2.users 3 =
      some { (⟨3, "active@x.com", "Act", "admin", bcryptHash "pw3", true,
        []⟩ : User) with passwordHash := bcryptHash "pw4" } ∧
    (verifyCredentials (changePassword exMultiUserState 3 "pw3" "pw4").2
        "active@x.com" "pw3" "9.9.9.9" "UA" 5 "123456" "cid" true
        false).1.success = false ∧
    (verifyCredentials (changePassword exMultiUserState 3 "pw3" "pw4").2
        "active@x.com" "pw3" "9.9.9.9" "UA" 5 "123456" "cid" true
        false).1.message = "Invalid credentials" :=
  ⟨⟨by decide, by decide, by decide, by decide, by decide, by decide⟩,
   c7_change_password exMultiUserState
     ⟨3, "active@x.com", "Act", "admin", bcryptHash "pw3", true, []⟩ 3
     "nope" "x" exMultiUserState
     ⟨3, "active@x.com", "Act", "admin", bcryptHash "pw3", true, []⟩ 3
     "pw3" "pw4" "active@x.com" "9.9.9.9" "UA" "123456" "cid" 5 true false
     (by decide) (by decide) (by decide) (by decide) (by decide) (by decide)
     (by decide)⟩

end BotControl
